import Mathlib

/-!
Verification of the catapcore machine-control layer.

Shallow embedding of the snapshot engine (`catapcore/common/machine/snapshot.py`),
the hardware snapshot capture (`catapcore/common/machine/hardware.py`) and the
PV layer (`catapcore/common/machine/pv_utils.py`).

Python dictionaries are modelled as association lists (`List (String × _)`);
indexing `d[k]` is modelled by `List.lookup`, and the dict invariant of unique
keys is carried as a `Nodup` hypothesis where a proof needs it.  Python floats
are modelled as exact rationals `ℚ`; `datetime` values are modelled by their
epoch timestamp as a rational.
-/

namespace Catapcore

/-- A captured PV value as it appears in a snapshot document: scalar numbers,
strings (e.g. a `StatePV` state name) and booleans. -/
inductive Value where
  | num (q : ℚ)
  | str (s : String)
  | bl (b : Bool)
  deriving DecidableEq, Repr

/-- One control-point entry of a snapshot document: `{value, buffer?, timestamps?}`.
`Hardware.create_snapshot` stores the buffer's value column and timestamp column
as two separate lists. -/
structure Entry where
  value : Value
  buffer : Option (List ℚ) := none
  timestamps : Option (List ℚ) := none
  deriving DecidableEq, Repr

/-- Per-device settings: control-point name → entry (a Python dict). -/
abbrev SettingsDict := List (String × Entry)

/-- A snapshot document: hardware-type tag → device name → settings. -/
abbrev Document := List (String × List (String × SettingsDict))

instance : DecidableEq SettingsDict := inferInstance

instance : DecidableEq (List (String × SettingsDict)) := inferInstance

instance : DecidableEq Document := inferInstance

/-- Keys of an association list (Python `dict.keys()` / iteration order). -/
def dictKeys {α : Type} (d : List (String × α)) : List String :=
  d.map Prod.fst

/-- State of a `Snapshot` engine instance: the held document (`_snapshot`),
the `_applied` flag and the `_last_applied` timestamp. -/
structure SnapshotState where
  snapshot : Option Document := none
  applied : Bool := false
  lastApplied : Option ℚ := none
  deriving DecidableEq, Repr

/-- Errors raised by the snapshot engine. -/
inductive SnapError where
  | invalidSnapshotSetting
  | valueError
  | typeError
  | keyError
  deriving DecidableEq, Repr

/-- `Snapshot.set`: when `self._hardware_type not in snapshot`, the code means
to raise `InvalidSnapshotSetting`, but the message f-string evaluates
`snapshot.keys()[0]` first — a `dict_keys` view is not subscriptable in
Python 3 — so what actually escapes is a `TypeError`, thrown before the
exception object is constructed.  Otherwise the document is stored as
`self._snapshot` and `self._applied` is cleared.  Either raise happens before
any assignment, so on error the engine state is unchanged. -/
def snapshotSet (tag : String) (doc : Document) (st : SnapshotState) :
    Except SnapError SnapshotState :=
  if tag ∈ dictKeys doc then
    .ok { st with snapshot := some doc, applied := false }
  else
    .error .typeError

/-- Helper for `Snapshot._find_diff`: walk the given key list (the keys of `d1`),
index both dicts, and keep `{current, diff}` pairs where the two `value` fields
differ.  A key missing from `d2` is a Python `KeyError` (`d2[k]`), modelled as
`none`; the `(none, _)` case cannot arise because the keys are drawn from `d1`. -/
def findDiffAux (d1 d2 : SettingsDict) :
    List String → Option (List (String × Value × Value))
  | [] => some []
  | k :: ks =>
    match d1.lookup k, d2.lookup k with
    | some e1, some e2 =>
      (findDiffAux d1 d2 ks).map fun rest =>
        if e1.value ≠ e2.value then (k, e1.value, e2.value) :: rest else rest
    | _, _ => none

/-- `Snapshot._find_diff`: `{k: {current: d1[k].value, diff: d2[k].value} for k in d1
if d1[k].value != d2[k].value}`. -/
def findDiff (d1 d2 : SettingsDict) : Option (List (String × Value × Value)) :=
  findDiffAux d1 d2 (dictKeys d1)

/-- `Snapshot._is_snapshot_correct_type`: `snapshot and self._hardware_type in snapshot`
(a Python dict is truthy iff non-empty). -/
def isSnapshotCorrectType (tag : String) (snapshot : Document) : Bool :=
  !snapshot.isEmpty && tag ∈ dictKeys snapshot

/-- One per-device diff entry: either the point-level `{current, diff}` map, or
(for a device missing from the second snapshot) the device's full settings. -/
inductive DeviceDiff where
  | pointDiffs (l : List (String × Value × Value))
  | fullEntry (settings : SettingsDict)
  deriving DecidableEq, Repr

/-- Loop body of `Snapshot.diff` over `s1.items()`: accumulate a device entry when
`_find_diff` is non-empty, or the full settings when the device is absent from
`s2`.  An inner `KeyError` (see `findDiffAux`) aborts the whole call. -/
def diffDevices (s2 : List (String × SettingsDict)) :
    List (String × SettingsDict) → Option (List (String × DeviceDiff))
  | [] => some []
  | (name, settings) :: rest =>
    if name ∈ dictKeys s2 then
      match findDiff settings ((s2.lookup name).getD []) with
      | none => none
      | some found =>
        (diffDevices s2 rest).map fun tail =>
          if !found.isEmpty then (name, .pointDiffs found) :: tail else tail
    else
      (diffDevices s2 rest).map fun tail => (name, .fullEntry settings) :: tail

/-- `Snapshot.diff`: requires both snapshots truthy (`ValueError` otherwise)
and both carrying the engine's hardware-type tag; then walks the first
snapshot's devices, comparing point values against the second.  The
wrong-tag branch means to raise `InvalidSnapshotSetting`, but its message
f-string evaluates `first_snapshot.keys()[0]` — unsubscriptable in Python 3 —
so a `TypeError` escapes instead (same slip as in `Snapshot.set`). -/
def snapshotDiff (tag : String) (first second : Document) :
    Except SnapError (List (String × DeviceDiff)) :=
  if first.isEmpty || second.isEmpty then
    .error .valueError
  else if isSnapshotCorrectType tag first && isSnapshotCorrectType tag second then
    match diffDevices ((second.lookup tag).getD []) ((first.lookup tag).getD []) with
    | some diffs => .ok diffs
    | none => .error .keyError
  else
    .error .typeError

/-- Loop body of `Snapshot.apply` over `self._hardware.items()`: for each device
name not in `exclude`, look up `self._snapshot[self._hardware_type][name]`; on
`KeyError` set `_applied = False` and warn, otherwise spawn an apply task for the
device.  Returns (running applied flag, applied device names, warnings). -/
def applyLoop (tag : String) (doc : Document) (exclude : List String)
    (hardware : List String) : Bool × List String × List String :=
  hardware.foldl
    (fun (acc : Bool × List String × List String) name =>
      if name ∈ exclude then acc
      else
        match (doc.lookup tag).bind (fun devs => devs.lookup name) with
        | some _ => (acc.1, acc.2.1 ++ [name], acc.2.2)
        | none =>
          (false, acc.2.1,
            acc.2.2 ++ [s!"Could not find {name} in snapshot settings."]))
    (true, [], [])

/-- `Snapshot.apply(exclude)`: run the per-device loop (which may set
`_applied = False` and warn for missing devices), then — unconditionally, after
joining all tasks — set `_applied = True` and record
`_last_applied = datetime.now()`.  Returns the final engine state, the device
names an apply task was issued for, and the warnings.  When no document is held
(`_snapshot is None`), indexing `self._snapshot[self._hardware_type]` raises an
uncaught `TypeError` as soon as a non-excluded device is processed (modelled as
an error); with every device excluded the loop body never runs and the call
still finishes by marking the engine applied. -/
def snapshotApply (tag : String) (exclude hardware : List String)
    (st : SnapshotState) (now : ℚ) :
    Except SnapError (SnapshotState × List String × List String) :=
  match st.snapshot with
  | none =>
    if hardware.all (fun name => name ∈ exclude) then
      .ok ({ st with applied := true, lastApplied := some now }, [], [])
    else .error .typeError
  | some doc =>
    let loop := applyLoop tag doc exclude hardware
    -- the running `_applied` flag computed by the loop (`loop.1`) is dead: the
    -- two trailing assignments overwrite it unconditionally
    .ok ({ st with applied := true, lastApplied := some now },
      loop.2.1, loop.2.2)

/-- Python runtime values as seen by the PV layer. -/
inductive PyVal where
  | pyBool (b : Bool)
  | pyInt (n : ℤ)
  | pyFloat (q : ℚ)
  | pyStr (s : String)
  deriving DecidableEq, Repr

/-- The Python types `PVSignal.get` checks against via `isinstance`. -/
inductive PyType where
  | bool
  | int
  | float
  | str
  deriving DecidableEq, Repr

/-- Python `isinstance`; note `bool` is a subclass of `int`, so
`isinstance(True, int)` holds. -/
def isinstance : PyVal → PyType → Bool
  | .pyBool _, .bool => true
  | .pyBool _, .int => true
  | .pyInt _, .int => true
  | .pyFloat _, .float => true
  | .pyStr _, .str => true
  | _, _ => false

/-- Python truthiness `bool(x)`; `bool(None)` is `False`. -/
def pyTruthy : Option PyVal → Bool
  | none => false
  | some (.pyBool b) => b
  | some (.pyInt n) => n != 0
  | some (.pyFloat q) => q != 0
  | some (.pyStr s) => !s.isEmpty

/-- `PVSignal.get` on the list-typed `expected_type` path (the one `ScalarPV`
and `BinaryPV` take).  The underlying channel read `self._pv.get(...)` is
modelled by `read : Option PyVal`, `none` being a failed connection; the source
issues a second `self._pv.get` once the first value passes the type check, and
both reads are modelled as returning the same value.  A `None` or wrongly typed
value fails `isinstance` (`isinstance(None, t)` is `False`), raising the local
`ValueError` which the handler turns into a warning, and the function falls off
the end returning `None`.  Returns (value returned to the caller, warnings). -/
def pvSignalGetList (read : Option PyVal) (expected : List PyType) :
    Option PyVal × List String :=
  let valid := match read with
    | none => false
    | some v => expected.any (isinstance v)
  if valid then (read, [])
  else
    match read with
    | none => (none, ["Failed to get value due to failed connection"])
    | some _ => (none, ["Expected type was not retrieved"])

/-- `BinaryPV.get`: `bool(super().get(expected_type=[bool, int]))`. -/
def binaryPVGet (read : Option PyVal) : Bool :=
  pyTruthy (pvSignalGetList read [.bool, .int]).1

/-- The state of a `PVSignal` relevant to `put`: the `read_only` flag and the
cached `_value`. -/
structure PVState where
  readOnly : Bool
  value : Option PyVal := none
  deriving DecidableEq, Repr

/-- `PVSignal.put`: when not read-only, forwards the value to
`self._pv.put(value)`; otherwise emits a `FailedEPICSOperationWarning`.
Neither branch assigns `self._value`.  Returns (state after the call, values
written to the control system, warnings). -/
def pvSignalPut (s : PVState) (v : PyVal) : PVState × List PyVal × List String :=
  if !s.readOnly then
    (s, [v], [])
  else
    (s, [], ["Failed to put because read-only is True"])

/-- `collections.deque` append with a `maxlen`: when the deque is full the
oldest element (the head) is discarded before the new one is appended. -/
def dequeAppend {α : Type} (maxlen : ℕ) (buf : List α) (x : α) : List α :=
  if buf.length = maxlen then buf.tail ++ [x] else buf ++ [x]

/-- `statistics.mean`: the arithmetic mean. -/
def meanFn (l : List ℚ) : ℚ :=
  l.sum / l.length

/-- `statistics.stdev(data, xbar)` squared, i.e. the sample variance
`sum((x - xbar)^2) / (n - 1)`.  The source stores `sqrt` of this; the square
root does not exist in `ℚ`, so `_stdev` is represented throughout by its
square, which determines it (stdev is non-negative) and is recomputed at
exactly the same program points. -/
def stdevSqFn (l : List ℚ) : ℚ :=
  (l.map fun x => (x - meanFn l) ^ 2).sum / ((l.length : ℚ) - 1)

/-- `statistics.median`: middle element of the sorted data, or the average of
the two middle elements for even lengths. -/
def medianFn (l : List ℚ) : ℚ :=
  let s := l.mergeSort (· ≤ ·)
  let n := l.length
  if n % 2 = 1 then s.getD (n / 2) 0
  else (s.getD (n / 2 - 1) 0 + s.getD (n / 2) 0) / 2

/-- `statistics.mode`: the most common value; on ties, the first such value
encountered in data order. -/
def modeFn (l : List ℚ) : ℚ :=
  (l.foldl
    (fun acc x =>
      match acc with
      | none => some x
      | some m => if l.count x > l.count m then some x else some m)
    none).getD 0

/-- State of a `StatisticalPV`: the cached value/timestamp, the statistics
deque `_buffer` of `(timestamp, value)` pairs (oldest first) with its capacity,
the running aggregates, and the buffering bookkeeping (`_callback_index`,
`_is_buffering`). -/
structure StatState where
  value : Option ℚ := none
  timestamp : Option ℚ := none
  buffer : List (ℚ × ℚ) := []
  maxlen : ℕ
  statMax : ℚ
  statMin : ℚ
  statMean : Option ℚ := none
  statStdevSq : Option ℚ := none
  statMedian : Option ℚ := none
  statMode : Option ℚ := none
  callbackIndex : Option ℕ := none
  isBuffering : Bool := false
  deriving DecidableEq, Repr

/-- `StatisticalPV.update_stats(value, timestamp)`: cache the value, set the
timestamp (`if timestamp:` is float truthiness, so a zero timestamp falls back
to `datetime.now()`, modelled by the `now` parameter), append `(timestamp,
value)` to the deque (evicting the oldest element when full), update `_max` and
`_min` by comparing absolute values, and recompute mean/stdev/median/mode over
the current window only once `len(self._buffer) > 2`. -/
def updateStats (s : StatState) (value ts now : ℚ) : StatState :=
  let timestamp' := if ts ≠ 0 then some ts else some now
  let buf' := dequeAppend s.maxlen s.buffer (ts, value)
  let max' := if |value| > |s.statMax| then value else s.statMax
  let min' := if |value| < |s.statMin| then value else s.statMin
  let base := { s with value := some value, timestamp := timestamp',
                       buffer := buf', statMax := max', statMin := min' }
  if 2 < buf'.length then
    let vals := buf'.map Prod.snd
    { base with statMean := some (meanFn vals),
                statStdevSq := some (stdevSqFn vals),
                statMedian := some (medianFn vals),
                statMode := some (modeFn vals) }
  else base

/-- The `StatisticalPV.buffer` property: `list(self._buffer)`, a fresh list
holding a copy of the deque's contents. -/
def bufferProp (s : StatState) : List (ℚ × ℚ) :=
  s.buffer

/-- Python `list.clear()`: empties the receiver list object.  Applied to the
copy returned by `bufferProp` it has no effect on the `StatState`. -/
def listClear (_l : List (ℚ × ℚ)) : List (ℚ × ℚ) :=
  []

/-- `StatisticalPV.start_buffering`: guarded by `self._callback_index is None`
(so a second start on an active point changes nothing).  The body executes
`self.buffer.clear()` — `buffer` being the copy-returning property, the cleared
list is the copy and the deque `self._buffer` is left untouched — then
registers the update callback (its index modelled by `newIdx`) and sets
`_is_buffering = True`. -/
def startBuffering (s : StatState) (newIdx : ℕ) : StatState :=
  if s.callbackIndex = none then
    let _clearedCopy := listClear (bufferProp s)
    { s with callbackIndex := some newIdx, isBuffering := true }
  else s

/-- `StatisticalPV.stop_buffering`: deregisters the callback and clears the
flag; the buffer contents are untouched. -/
def stopBuffering (s : StatState) : StatState :=
  { s with callbackIndex := none, isBuffering := false }

/-- A control point as seen by `Hardware.create_snapshot`: a `StatePV`
(serialised via `pv.get().name`), any other plain PV (serialised via
`pv.get()`), or a `StatisticalPV` carrying its current value, its statistics
deque of `(timestamp, value)` pairs, and its `_is_buffering` flag. -/
inductive PVModel where
  | statePV (stateName : String)
  | plainPV (value : Value)
  | statisticalPV (value : ℚ) (buffer : List (ℚ × ℚ)) (isBuffering : Bool)
  deriving DecidableEq, Repr

/-- The parts of a `Hardware` object that `create_snapshot` reads: its name,
the PV map (`controls_information.pv_record_map.pvs`), the
`_snapshot_gettables` / `_snapshot_settables` handle lists, and
`_additional_snapshot_information`. -/
structure HardwareModel where
  name : String
  pvs : List (String × PVModel)
  snapshotGettables : List String
  snapshotSettables : List String
  additionalInfo : List (String × Value)
  deriving DecidableEq, Repr

/-- The handles collected into `PVMap._statistics`: every field of the PV map
that is a `StatisticalPV` (collected at construction, regardless of whether it
is buffering). -/
def statisticsHandles (hw : HardwareModel) : List String :=
  hw.pvs.filterMap fun p =>
    match p.2 with
    | .statisticalPV _ _ _ => some p.1
    | _ => none

/-- `Hardware.is_buffering(handle)` for a single handle: the source returns
`names in self.statistics`, i.e. membership of the handle among the
`StatisticalPV`s of the PV map; the per-PV `_is_buffering` flag is not
consulted. -/
def hardwareIsBuffering (hw : HardwareModel) (handle : String) : Bool :=
  handle ∈ statisticsHandles hw

/-- The serialised `value` field for one PV: `pv.get().name` for a `StatePV`,
`pv.get()` otherwise. -/
def pvReadValue : PVModel → Value
  | .statePV n => .str n
  | .plainPV v => v
  | .statisticalPV v _ _ => .num v

/-- `Hardware.get_statistics(handle)` for a single handle: the statistics deque
of the `StatisticalPV` registered under that handle (`self.statistics[names]`).
Only reached by `create_snapshot` after `hardwareIsBuffering` held, so the
lookup succeeds there. -/
def statBufferOf (hw : HardwareModel) (handle : String) : List (ℚ × ℚ) :=
  match hw.pvs.lookup handle with
  | some (.statisticalPV _ buf _) => buf
  | _ => []

/-- Python `dict.update({k: v})`: replace the value at `k` in place if the key
exists (keeping its position), otherwise append the new pair. -/
def dictUpdate {α : Type} (m : List (String × α)) (k : String) (v : α) :
    List (String × α) :=
  if k ∈ dictKeys m then
    m.map fun p => if p.1 = k then (k, v) else p
  else m ++ [(k, v)]

/-- The entry built for one snapshot-relevant PV by the first loop of
`create_snapshot`: the serialised value and, when `self.is_buffering(handle)`
holds, the buffer's value column (`array(stats.buffer)[::, 1]`) and timestamp
column (`[::, 0]`) as two parallel lists.  (The numpy column indexing would
raise on an empty buffer; the claims below only exercise non-empty buffers.) -/
def snapshotEntryFor (hw : HardwareModel) (handle : String) (pv : PVModel) :
    Entry :=
  let e : Entry := { value := pvReadValue pv }
  if hardwareIsBuffering hw handle then
    let buf := statBufferOf hw handle
    { e with buffer := some (buf.map Prod.snd),
             timestamps := some (buf.map Prod.fst) }
  else e

/-- `Hardware.create_snapshot`: first loop over the PV map, collecting an entry
for every handle flagged gettable or settable; second loop merging
`_additional_snapshot_information`, skipping (with a warning) any key found in
the TOP-level dict `snapshot` — whose only key is the device name — and
otherwise writing `{handle: {value}}` into the device entry via `dict.update`,
which overwrites an existing handle.  Returns the per-device settings dict
(the value of `snapshot[self.name]`) and the warnings emitted. -/
def createSnapshot (hw : HardwareModel) : SettingsDict × List String :=
  let base := hw.pvs.foldl
    (fun (acc : SettingsDict) p =>
      if p.1 ∈ hw.snapshotGettables ∨ p.1 ∈ hw.snapshotSettables then
        dictUpdate acc p.1 (snapshotEntryFor hw p.1 p.2)
      else acc)
    []
  hw.additionalInfo.foldl
    (fun (acc : SettingsDict × List String) p =>
      if p.1 = hw.name then
        (acc.1,
          acc.2 ++ ["Additional snapshot information cannot have entry "
            ++ p.1 ++ " as this is set in default snapshot."])
      else
        let e : Entry := { value := p.2 }
        let e := if hardwareIsBuffering hw p.1 then
            let buf := statBufferOf hw p.1
            { e with buffer := some (buf.map Prod.snd),
                     timestamps := some (buf.map Prod.fst) }
          else e
        (dictUpdate acc.1 p.1 e, acc.2))
    (base, [])

/-! ## Association-list (Python dict) helper lemmas -/

theorem lookup_some_mem_keys {β : Type} (l : List (String × β)) (k : String) (v : β)
    (h : l.lookup k = some v) : k ∈ l.map Prod.fst := by
  induction l with
  | nil => simp [List.lookup] at h
  | cons p l ih =>
    rw [List.lookup] at h
    by_cases hk : k == p.1
    · have : k = p.1 := by simpa using hk
      simp [this]
    · simp [hk] at h
      simp only [List.map_cons, List.mem_cons]
      exact Or.inr (ih h)

theorem lookup_of_mem_nodup {β : Type} (l : List (String × β))
    (hnd : (l.map Prod.fst).Nodup) (p : String × β) (hp : p ∈ l) :
    l.lookup p.1 = some p.2 := by
  induction l with
  | nil => cases hp
  | cons q l ih =>
    rcases List.mem_cons.mp hp with h | h
    · subst h
      simp [List.lookup]
    · have hnd' : (l.map Prod.fst).Nodup := (List.nodup_cons.mp (by simpa using hnd)).2
      have hne : ¬(p.1 == q.1) := by
        intro he
        have heq : p.1 = q.1 := by simpa using he
        have hq : q.1 ∈ l.map Prod.fst := by
          rw [← heq]; exact List.mem_map.mpr ⟨p, h, rfl⟩
        exact (List.nodup_cons.mp (by simpa using hnd)).1 hq
      rw [List.lookup]
      simp only [hne]
      exact ih hnd' h

theorem mem_keys_lookup_isSome {β : Type} (l : List (String × β)) (k : String)
    (h : k ∈ l.map Prod.fst) : ∃ v, l.lookup k = some v := by
  induction l with
  | nil => simp at h
  | cons p l ih =>
    rw [List.lookup]
    by_cases hk : k == p.1
    · simp [hk]
    · simp only [hk]
      apply ih
      rw [List.map_cons] at h
      rcases List.mem_cons.mp h with h1 | h1
      · exact absurd (by simp [h1]) hk
      · exact h1

/-! ## Diff lemmas -/

theorem findDiffAux_self (d : SettingsDict) :
    ∀ ks : List String, (∀ k ∈ ks, k ∈ dictKeys d) → findDiffAux d d ks = some [] := by
  intro ks
  induction ks with
  | nil => intro _; rfl
  | cons k ks ih =>
    intro h
    obtain ⟨e, he⟩ := mem_keys_lookup_isSome d k (h k (List.mem_cons_self k ks))
    simp only [findDiffAux, he]
    rw [ih (fun k hk => h k (List.mem_cons_of_mem _ hk))]
    simp

theorem findDiff_self (d : SettingsDict) : findDiff d d = some [] :=
  findDiffAux_self d (dictKeys d) (fun _ hk => hk)

theorem diffDevices_sub (s2 : List (String × SettingsDict)) :
    ∀ l : List (String × SettingsDict),
      (∀ p ∈ l, s2.lookup p.1 = some p.2) → diffDevices s2 l = some [] := by
  intro l
  induction l with
  | nil => intro _; rfl
  | cons p l ih =>
    intro h
    have hp := h p (List.mem_cons_self p l)
    have hmem : p.1 ∈ dictKeys s2 := lookup_some_mem_keys s2 p.1 p.2 hp
    rw [diffDevices, if_pos hmem, hp]
    simp only [Option.getD_some]
    rw [findDiff_self]
    rw [ih (fun q hq => h q (List.mem_cons_of_mem _ hq))]
    simp

/-! ## Claim theorems -/

/-- C9: for every valid snapshot document `a` carrying the engine's
hardware-type tag (with the device keys unique, as they are in a Python dict),
`diff(a, a)` returns an empty Diff Result — no device entries at all. -/
theorem diff_self_is_empty (tag : String) (a : Document)
    (s1 : List (String × SettingsDict))
    (h1 : a.lookup tag = some s1) (hnd : (dictKeys s1).Nodup) :
    snapshotDiff tag a a = .ok [] := by
  have hne : a.isEmpty = false := by
    cases a with
    | nil => simp [List.lookup] at h1
    | cons p l => rfl
  have hmem : tag ∈ dictKeys a := lookup_some_mem_keys a tag s1 h1
  have hok : diffDevices s1 s1 = some [] :=
    diffDevices_sub s1 s1 (fun p hp => lookup_of_mem_nodup s1 hnd p hp)
  simp only [snapshotDiff, hne, isSnapshotCorrectType, hmem, h1, Option.getD_some,
    Bool.or_self, Bool.false_eq_true, if_false, Bool.not_false, hok]
  simp

/-- Witness for C9: `diff(a, a)` on a concrete one-device document is empty. -/
theorem diff_self_is_empty_witness :
    snapshotDiff "mag" [("mag", [("D1", [("X", { value := .num 1 })])])]
      [("mag", [("D1", [("X", { value := .num 1 })])])] = .ok [] :=
  diff_self_is_empty "mag" _ [("D1", [("X", { value := .num 1 })])]
    (by decide) (by decide)

/-- C2 counterexample: the claim says a document mixing the engine's tag with
other tags is rejected, but `Snapshot.set` only tests membership
(`self._hardware_type not in snapshot`): a document whose top-level keys are
`["mag", "bpm"]` — not equal to the engine's single tag — is accepted. -/
theorem set_accepts_mixed_tag_document :
    (snapshotSet "mag" [("mag", []), ("bpm", [])] {}).isOk = true ∧
      dictKeys ([("mag", []), ("bpm", [])] : Document) ≠ ["mag"] := by
  decide

/-- C2 (amended): `set(document)` accepts exactly when the engine's
hardware-type tag is AMONG the document's top-level keys (membership, not
key-set equality); on acceptance the document is stored as the held document
and `applied` is cleared.  Any document without the tag makes `set` raise —
though not the intended `InvalidSnapshotSetting`: formatting its message
evaluates `snapshot.keys()[0]`, unsubscriptable in Python 3, so a `TypeError`
escapes — and since the raise precedes every assignment, the held document is
unchanged. -/
theorem set_accepts_iff_tag_member (tag : String) (doc : Document)
    (st : SnapshotState) (h : tag ∈ dictKeys doc) :
    snapshotSet tag doc st = .ok { st with snapshot := some doc, applied := false } ∧
      ∀ doc' : Document, tag ∉ dictKeys doc' →
        snapshotSet tag doc' st = .error .typeError := by
  refine ⟨?_, ?_⟩
  · rw [snapshotSet, if_pos h]
  · intro doc' h'
    rw [snapshotSet, if_neg h']

/-- Witness for C2 (amended): a document keyed by the tag is accepted and
stored with `applied = false`; a document without the tag errors (with the
`TypeError` from the broken message formatting). -/
theorem set_accepts_iff_tag_member_witness :
    snapshotSet "mag" [("mag", [])] {} =
        .ok { snapshot := some [("mag", [])], applied := false } ∧
      snapshotSet "mag" [("bpm", [])] {} = .error .typeError := by
  obtain ⟨h1, h2⟩ := set_accepts_iff_tag_member "mag" [("mag", [])] {} (by decide)
  exact ⟨h1, h2 [("bpm", [])] (by decide)⟩

/-- C8: `put` on a read-only control point does not forward anything to the
underlying control system, emits a warning-level failure, and leaves the
point's state (its cached `_value` included) unchanged. -/
theorem put_read_only_rejected (s : PVState) (v : PyVal) (h : s.readOnly = true) :
    pvSignalPut s v = (s, [], ["Failed to put because read-only is True"]) := by
  rw [pvSignalPut, h]
  rfl

/-- Witness for C8: a read-only scalar point receiving `put(5.0)` keeps its
value; nothing is written; one warning is emitted. -/
theorem put_read_only_rejected_witness :
    pvSignalPut { readOnly := true, value := some (.pyFloat 1) } (.pyFloat 5) =
      ({ readOnly := true, value := some (.pyFloat 1) }, [],
        ["Failed to put because read-only is True"]) :=
  put_read_only_rejected { readOnly := true, value := some (.pyFloat 1) }
    (.pyFloat 5) rfl

/-- C10: `BinaryPV.get` wraps the base `get` in `bool(...)`, so whenever the
base `get` yields no value (failed connection or unexpected type — it returns
`None` after warning), the result is `False` rather than `None` or an
exception; a genuine 0/off reading also yields `False`, so the two are
indistinguishable at the public interface. -/
theorem binary_get_failure_is_false (read : Option PyVal)
    (h : (pvSignalGetList read [.bool, .int]).1 = none) :
    binaryPVGet read = false ∧ binaryPVGet (some (.pyInt 0)) = false := by
  constructor
  · rw [binaryPVGet, h]
    rfl
  · rfl

/-- Witness for C10: a connection failure (`read = none`) yields `False`,
exactly like a genuine 0 reading. -/
theorem binary_get_failure_is_false_witness :
    binaryPVGet none = false ∧ binaryPVGet (some (.pyInt 0)) = false :=
  binary_get_failure_is_false none rfl

/-- An engine holding the document `{"mag": {}}` — device `D1` is missing. -/
def heldMagState : SnapshotState :=
  { snapshot := some [("mag", [])], applied := false }

/-- C1 (code bug): with registry `["D1"]` and a held document that does not
contain `D1`, `apply([])` warns about the missing device but nonetheless
finishes with `applied = true` and `last_applied` recorded — the
`self._applied = False` assignment in the `except KeyError` branch is dead,
overwritten by the unconditional `self._applied = True` after the loop.  The
claim (engine remains Held with `applied = false`) is violated. -/
theorem apply_marks_applied_despite_missing_device :
    snapshotApply "mag" [] ["D1"] heldMagState 100 =
      .ok ({ snapshot := some [("mag", [])], applied := true,
             lastApplied := some 100 },
        [], ["Could not find D1 in snapshot settings."]) := by
  rfl

/-- A statistical point that is not buffering (no callback registered) but
still holds one sample `(timestamp 1, value 2)` in its window. -/
def stoppedStatState : StatState :=
  { buffer := [(1, 2)], maxlen := 10, statMax := 0, statMin := 0 }

/-- C3 (code bug): `start_buffering` on a non-buffering point with a non-empty
window registers the subscription and sets the flag, but the window is NOT
cleared: `self.buffer.clear()` clears the fresh list returned by the `buffer`
property (`list(self._buffer)`), leaving the deque `self._buffer` untouched.
The claim (buffer empty immediately after start) is violated. -/
theorem start_buffering_does_not_clear_window :
    (startBuffering stoppedStatState 0).buffer = [(1, 2)] ∧
      (startBuffering stoppedStatState 0).isBuffering = true ∧
      stoppedStatState.buffer ≠ [] := by
  decide

/-- A device with a single statistical point `S` whose buffering has been
stopped (`_is_buffering = false`) but whose window still holds one sample. -/
def stoppedStatHardware : HardwareModel :=
  { name := "D", pvs := [("S", .statisticalPV 7 [(1, 5)] false)],
    snapshotGettables := ["S"], snapshotSettables := [], additionalInfo := [] }

/-- C4 (code bug): `create_snapshot` attaches the buffer and timestamp columns
to point `S` even though `S` is not currently buffering, because
`Hardware.is_buffering(handle)` tests membership among the map's
`StatisticalPV`s instead of consulting the point's `_is_buffering` flag.  The
claim (a stopped statistical point contributes only its value) is violated. -/
theorem capture_attaches_buffer_of_stopped_point :
    (createSnapshot stoppedStatHardware).1 =
        [("S", { value := .num 7, buffer := some [5], timestamps := some [1] })] ∧
      stoppedStatHardware.pvs = [("S", .statisticalPV 7 [(1, 5)] false)] := by
  decide

/-- A device with one scalar point `X` (captured value 1) and a caller-supplied
additional-information field under the same key `X` (value 2). -/
def collidingInfoHardware : HardwareModel :=
  { name := "D", pvs := [("X", .plainPV (.num 1))],
    snapshotGettables := ["X"], snapshotSettables := [],
    additionalInfo := [("X", .num 2)] }

/-- C5 (code bug): the collision guard tests `handle in snapshot` against the
TOP-level dict (whose only key is the device name) instead of the device's
entry `snapshot[self.name]`, so an additional-information key that collides
with a point name is never detected: the point's captured value 1 is silently
overwritten by the additional value 2 and no warning is emitted.  The claim
(warning emitted, entry skipped, captured value unchanged) is violated. -/
theorem additional_info_overwrites_colliding_point :
    (createSnapshot collidingInfoHardware).1 = [("X", { value := .num 2 })] ∧
      (createSnapshot collidingInfoHardware).2 = [] := by
  decide

/-! ## Statistics window lemmas -/

theorem dequeAppend_eq_drop {α : Type} (n : ℕ) (hn : 1 ≤ n) (buf : List α) (x : α)
    (h : buf.length ≤ n) :
    dequeAppend n buf x = (buf ++ [x]).drop ((buf.length + 1) - n) ∧
      (dequeAppend n buf x).length = (buf.length + 1) - ((buf.length + 1) - n) := by
  unfold dequeAppend
  by_cases hfull : buf.length = n
  · rw [if_pos hfull]
    have h1 : (1 : ℕ) ≤ buf.length := hfull ▸ hn
    have hd : buf.length + 1 - n = 1 := by omega
    rw [hd]
    constructor
    · rw [List.drop_append_of_le_length h1, List.drop_one]
    · simp
      omega
  · rw [if_neg hfull]
    have hd : buf.length + 1 - n = 0 := by omega
    rw [hd]
    constructor
    · simp
    · simp

theorem foldl_dequeAppend_eq_drop {α : Type} (n : ℕ) (hn : 1 ≤ n) :
    ∀ (xs buf : List α), buf.length ≤ n →
      List.foldl (dequeAppend n) buf xs
        = (buf ++ xs).drop ((buf.length + xs.length) - n) := by
  intro xs
  induction xs with
  | nil =>
    intro buf h
    simp [Nat.sub_eq_zero_of_le h]
  | cons x xs ih =>
    intro buf h
    rw [List.foldl_cons]
    obtain ⟨heq, hlen⟩ := dequeAppend_eq_drop n hn buf x h
    have hble : (dequeAppend n buf x).length ≤ n := by omega
    rw [ih _ hble]
    rw [heq]
    have hd : (buf.length + 1) - n ≤ (buf ++ [x]).length := by simp
    rw [← List.drop_append_of_le_length hd]
    rw [List.drop_drop]
    have happ : (buf ++ [x]) ++ xs = buf ++ x :: xs := by simp
    rw [happ]
    congr 1
    simp at hlen ⊢
    omega

/-- A stream of `(timestamp, value)` callback updates applied in order through
`update_stats`.  The `now` fallback for zero timestamps does not affect the
window contents, so it is fixed to 0 here. -/
def runUpdates (s : StatState) (xs : List (ℚ × ℚ)) : StatState :=
  xs.foldl (fun s p => updateStats s p.2 p.1 0) s

theorem updateStats_buffer (s : StatState) (v ts now : ℚ) :
    (updateStats s v ts now).buffer = dequeAppend s.maxlen s.buffer (ts, v) ∧
      (updateStats s v ts now).maxlen = s.maxlen := by
  by_cases hb : 2 < (dequeAppend s.maxlen s.buffer (ts, v)).length <;>
    by_cases ht : ts ≠ 0 <;>
      simp [updateStats, hb, ht]

theorem runUpdates_buffer (s : StatState) (xs : List (ℚ × ℚ)) :
    (runUpdates s xs).buffer = List.foldl (dequeAppend s.maxlen) s.buffer xs ∧
      (runUpdates s xs).maxlen = s.maxlen := by
  induction xs generalizing s with
  | nil => exact ⟨rfl, rfl⟩
  | cons x xs ih =>
    unfold runUpdates
    rw [List.foldl_cons, List.foldl_cons]
    obtain ⟨hb, hm⟩ := updateStats_buffer s x.2 x.1 0
    obtain ⟨ihb, ihm⟩ := ih (updateStats s x.2 x.1 0)
    unfold runUpdates at ihb ihm
    refine ⟨?_, by rw [ihm, hm]⟩
    rw [ihb, hb, hm]

/-- C6: starting from an empty window of capacity `n ≥ 1`, after `n + k`
updates (`k ≥ 0`) the window holds exactly `min(n+k, n)` samples, and the
surviving samples are precisely the most recent `n` pushed, in push order
(oldest first) — every eviction removed the oldest entry (FIFO). -/
theorem window_fifo_after_updates (n k : ℕ) (hn : 1 ≤ n) (s : StatState)
    (hbuf : s.buffer = []) (hcap : s.maxlen = n)
    (xs : List (ℚ × ℚ)) (hlen : xs.length = n + k) :
    (runUpdates s xs).buffer = xs.drop k ∧
      (runUpdates s xs).buffer.length = min (n + k) n := by
  obtain ⟨hb, _⟩ := runUpdates_buffer s xs
  rw [hb, hcap, hbuf]
  have h := foldl_dequeAppend_eq_drop n hn xs [] (by simp)
  simp only [List.nil_append, List.length_nil, Nat.zero_add] at h
  rw [h, hlen]
  have hk : n + k - n = k := by omega
  rw [hk]
  refine ⟨rfl, ?_⟩
  rw [List.length_drop, hlen]
  omega

/-- Witness for C6: capacity 2, three pushes — the window keeps the last two
samples in push order. -/
theorem window_fifo_after_updates_witness :
    (runUpdates { maxlen := 2, statMax := 0, statMin := 0 }
        [(1, 10), (2, 20), (3, 30)]).buffer = [(2, 20), (3, 30)] := by
  have h := window_fifo_after_updates 2 1 (by decide)
    { maxlen := 2, statMax := 0, statMin := 0 } rfl rfl
    [(1, 10), (2, 20), (3, 30)] (by decide)
  rw [h.1]
  rfl

/-- C7: one `update_stats(value, timestamp)` call replaces the stored max by
`value` exactly when `|value| > |max|` and the stored min exactly when
`|value| < |min|` (comparison by absolute magnitude), and recomputes
mean/stdev/median/mode over the full current window exactly when the window
length after the append is ≥ 3, otherwise leaving them at their prior values
(never resetting them to `None`).  `_stdev` is represented by its square
throughout (see `stdevSqFn`). -/
theorem update_stats_aggregates (s : StatState) (v ts now : ℚ) :
    ((updateStats s v ts now).statMax
        = if |v| > |s.statMax| then v else s.statMax) ∧
      ((updateStats s v ts now).statMin
        = if |v| < |s.statMin| then v else s.statMin) ∧
      (3 ≤ (dequeAppend s.maxlen s.buffer (ts, v)).length →
        (updateStats s v ts now).statMean
            = some (meanFn ((dequeAppend s.maxlen s.buffer (ts, v)).map Prod.snd)) ∧
          (updateStats s v ts now).statStdevSq
            = some (stdevSqFn ((dequeAppend s.maxlen s.buffer (ts, v)).map Prod.snd)) ∧
          (updateStats s v ts now).statMedian
            = some (medianFn ((dequeAppend s.maxlen s.buffer (ts, v)).map Prod.snd)) ∧
          (updateStats s v ts now).statMode
            = some (modeFn ((dequeAppend s.maxlen s.buffer (ts, v)).map Prod.snd))) ∧
      ((dequeAppend s.maxlen s.buffer (ts, v)).length < 3 →
        (updateStats s v ts now).statMean = s.statMean ∧
          (updateStats s v ts now).statStdevSq = s.statStdevSq ∧
          (updateStats s v ts now).statMedian = s.statMedian ∧
          (updateStats s v ts now).statMode = s.statMode) := by
  by_cases hb : 2 < (dequeAppend s.maxlen s.buffer (ts, v)).length <;>
    by_cases ht : ts ≠ 0 <;>
      simp [updateStats, hb, ht] <;>
        omega

/-- A statistical point with window `[(1, 1), (2, 2)]` and capacity 10, before
the third update arrives. -/
def twoSampleState : StatState :=
  { buffer := [(1, 1), (2, 2)], maxlen := 10, statMax := 0, statMin := 0 }

/-- Witness for C7: pushing 3 into a window `[1, 2]` of capacity 10 reaches
length 3, so the aggregates are recomputed (mean 2, variance 1); the stored
max becomes 3 (`|3| > |0|`) while the stored min stays 0 (`¬ |3| < |0|`). -/
theorem update_stats_aggregates_witness :
    (updateStats twoSampleState 3 3 0).statMax = 3 ∧
      (updateStats twoSampleState 3 3 0).statMin = 0 ∧
      (updateStats twoSampleState 3 3 0).statMean = some 2 ∧
      (updateStats twoSampleState 3 3 0).statStdevSq = some 1 := by
  obtain ⟨hmax, hmin, hrec, -⟩ := update_stats_aggregates twoSampleState 3 3 0
  obtain ⟨hmean, hsd, -, -⟩ := hrec (by decide)
  refine ⟨?_, ?_, ?_, ?_⟩
  · rw [hmax]
    norm_num [twoSampleState]
  · rw [hmin]
    norm_num [twoSampleState]
  · rw [hmean]
    norm_num [twoSampleState, dequeAppend, meanFn]
  · rw [hsd]
    norm_num [twoSampleState, dequeAppend, stdevSqFn, meanFn]

end Catapcore
